import Mathlib

/-!
Verification of the symptom-to-condition retrieval core of the
Health-Symptom-Checker application (`src/app.py`).

The application loads a tabular dataset of conditions and symptom columns,
normalizes the text fields, and answers a user selection of symptoms with the
set of conditions sharing at least one symptom.  A failing external
language-model call is replaced by a fixed fallback payload.

Shallow embedding conventions:
* A loaded dataframe row becomes a `Record` (condition string plus the list of
  symptom-column cell values in column order).  Pandas turns a missing cell
  into the float `NaN`, which `astype(str)` renders as the literal string
  `"nan"`; we therefore model raw cell contents as strings in which a missing
  cell is already the string `"nan"`.
* Python's `str.replace` applied to a one-character pattern and a
  one-character replacement is exactly a character-by-character map, which is
  how `replaceChar` renders `.replace(" ", "_")` and `.replace("_", " ")`.
* The Python `set` values (`row_symptoms`, `matched_conditions`) become
  `Finset String`; `retrieve_conditions` returns `list(matched_conditions)`
  in arbitrary set order, so we model its result as the `Finset` itself.
* The `try:`/`except:` around the model invocation and JSON parsing is
  modelled by an `Option ResultPayload` argument: `some r` when the call and
  the parse both succeed with payload `r`, `none` when anything raises.
-/

namespace HealthApp

/-- One loaded dataset row: the condition name together with the cell values
of the symptom columns, in column order (`df.iterrows` view of a row). -/
structure Record where
  condition : String
  symptoms : List String
deriving DecidableEq

/-- Python `s.replace(a, b)` for one-character `a`, `b`: replace every
occurrence of the character `a` by `b`. -/
def replaceChar (a b : Char) (s : String) : String :=
  ⟨s.data.map fun c => if c = a then b else c⟩

/-- Python `s.lower()`, character by character (the dataset and the examples
are ASCII, where `Char.toLower` agrees with Python). -/
def pyLower (s : String) : String :=
  ⟨s.data.map Char.toLower⟩

/-- Python `s.strip()`: drop leading and trailing whitespace. -/
def pyStrip (s : String) : String :=
  ⟨((s.data.dropWhile Char.isWhitespace).reverse.dropWhile Char.isWhitespace).reverse⟩

/-- Dataset-side normalization applied at load time to every symptom cell
(`df[col].astype(str).str.lower().str.strip()`, line 39 of `app.py`). -/
def datasetNormalize (s : String) : String :=
  pyStrip (pyLower s)

/-- Query-side normalization applied to each selected symptom inside
`retrieve_conditions` (`s.lower().strip().replace(" ", "_")`, line 43). -/
def normalizeToken (s : String) : String :=
  replaceChar ' ' '_' (pyStrip (pyLower s))

/-- The symptom set of one row (`set(s for s in row[symptom_cols].values if s
and s != "nan")`, lines 47-50): non-empty cell values other than the string
form `"nan"` of a missing cell. -/
def rowSymptoms (r : Record) : Finset String :=
  (r.symptoms.filter fun s => s != "" && s != "nan").toFinset

/-- `retrieve_conditions` (lines 42-54): normalize the selected symptoms,
keep every row whose symptom set meets the normalized selection, and collect
the matched condition names as a set. -/
def retrieve_conditions (ds : List Record) (user_symptoms : List String) :
    Finset String :=
  ((ds.filter fun r =>
      decide (rowSymptoms r ∩ (user_symptoms.map normalizeToken).toFinset).Nonempty).map
    Record.condition).toFinset

/-- Human-readable un-normalization used to display dataset tokens as
selectable options (`s.replace("_", " ")`, line 161). -/
def unnormalize (s : String) : String :=
  replaceChar '_' ' ' s

/-- The selectable symptom options (`all_symptoms`, lines 159-166): every
distinct symptom cell value other than `"nan"`, displayed with underscores
replaced by spaces.  The code sorts the set for display; we model the set. -/
def all_symptoms (ds : List Record) : Finset String :=
  (((ds.map Record.symptoms).flatten.filter fun s => s != "nan").map unnormalize).toFinset

/-- The scenario dataset of the spec after loading: rows
`(Flu: fever, cough)` and `(Cold: cough, sneezing)`. -/
def fluColdDataset : List Record :=
  [⟨"Flu", ["fever", "cough"]⟩, ⟨"Cold", ["cough", "sneezing"]⟩]

/-- Membership in the retrieval result: `c` is returned exactly when some
dataset row with condition name `c` has a symptom among the normalized
selection. -/
lemma mem_retrieve_iff (ds : List Record) (sel : List String) (c : String) :
    c ∈ retrieve_conditions ds sel ↔
      ∃ r, r ∈ ds ∧ (rowSymptoms r ∩ (sel.map normalizeToken).toFinset).Nonempty ∧
        r.condition = c := by
  unfold retrieve_conditions
  simp only [List.mem_toFinset, List.mem_map, List.mem_filter, decide_eq_true_eq]
  constructor
  · rintro ⟨r, ⟨hr, hm⟩, hc⟩
    exact ⟨r, hr, hm, hc⟩
  · rintro ⟨r, hr, hm, hc⟩
    exact ⟨r, ⟨hr, hm⟩, hc⟩

/-- The retrieval result depends on the selection only through the `Finset`
of its normalized tokens. -/
lemma retrieve_congr (ds : List Record) {s₁ s₂ : List String}
    (h : (s₁.map normalizeToken).toFinset = (s₂.map normalizeToken).toFinset) :
    retrieve_conditions ds s₁ = retrieve_conditions ds s₂ := by
  unfold retrieve_conditions
  rw [h]

/-- C1: for every input selection, `retrieve_conditions` returns exactly the
set of condition names of dataset records whose set of non-empty symptom
tokens (the non-empty cell values other than the missing-cell marker `"nan"`)
intersects the set of normalized input tokens; on the Flu/Cold scenario
dataset, selecting `["cough"]` yields `{"Flu", "Cold"}`, `["fever"]` yields
`{"Flu"}`, and `["headache"]` yields the empty set. -/
theorem retrieve_exact_set :
    (∀ (ds : List Record) (sel : List String) (c : String),
        c ∈ retrieve_conditions ds sel ↔
          ∃ r, r ∈ ds ∧
            (rowSymptoms r ∩ (sel.map normalizeToken).toFinset).Nonempty ∧
            r.condition = c) ∧
      retrieve_conditions fluColdDataset ["cough"] = {"Flu", "Cold"} ∧
      retrieve_conditions fluColdDataset ["fever"] = {"Flu"} ∧
      retrieve_conditions fluColdDataset ["headache"] = ∅ :=
  ⟨mem_retrieve_iff, by decide, by decide, by decide⟩

/-- Witness for C1 at a concrete input: `"Flu"` is retrieved for the
selection `["fever"]` on the scenario dataset. -/
theorem retrieve_exact_set_witness :
    "Flu" ∈ retrieve_conditions fluColdDataset ["fever"] :=
  (retrieve_exact_set.1 fluColdDataset ["fever"] "Flu").mpr
    ⟨⟨"Flu", ["fever", "cough"]⟩, by decide, by decide, rfl⟩

/-- C2 counterexample: the dataset-side normalization (lowercase and trim)
and the query-side normalization (lowercase, trim, spaces to underscores)
disagree on the string `"chest pain"`. -/
theorem normalization_mismatch_counterexample :
    ¬ datasetNormalize "chest pain" = normalizeToken "chest pain" := by
  decide

/-- C2 (amended): the query-side normalization equals the dataset-side
normalization followed by replacing spaces with underscores; the two agree on
every string whose lowercased, trimmed form contains no space character (in
particular on all underscore-form dataset tokens), and only differ where the
underscore substitution changes the dataset-side token. -/
theorem normalization_agreement :
    (∀ s : String, normalizeToken s = replaceChar ' ' '_' (datasetNormalize s)) ∧
      ∀ s : String, (∀ c ∈ (datasetNormalize s).data, c ≠ ' ') →
        datasetNormalize s = normalizeToken s := by
  refine ⟨fun s => rfl, fun s h => ?_⟩
  show datasetNormalize s = replaceChar ' ' '_' (datasetNormalize s)
  have hmap : (datasetNormalize s).data.map (fun c => if c = ' ' then '_' else c) =
      (datasetNormalize s).data := by
    rw [List.map_congr_left fun c hc => if_neg (h c hc), List.map_id']
  exact (congrArg String.mk hmap).symm

/-- Witness for C2 (amended): the two normalizations agree on `"fever"`. -/
theorem normalization_agreement_witness :
    datasetNormalize "fever" = normalizeToken "fever" :=
  normalization_agreement.2 "fever" (by decide)

/-- C3: for a symptom token `t` present in a loaded record, selecting its
human-readable un-normalization retrieves every condition whose record
contains the normalized equivalent of `t`. -/
theorem retrieve_unnormalized_token :
    ∀ (ds : List Record) (t : String) (r r' : Record),
      r ∈ ds → t ∈ rowSymptoms r → r' ∈ ds →
      normalizeToken (unnormalize t) ∈ rowSymptoms r' →
      r'.condition ∈ retrieve_conditions ds [unnormalize t] := by
  intro ds t r r' _ _ hr' hmem
  refine (mem_retrieve_iff ds [unnormalize t] r'.condition).mpr ⟨r', hr', ?_, rfl⟩
  refine ⟨normalizeToken (unnormalize t), Finset.mem_inter.mpr ⟨hmem, ?_⟩⟩
  simp

/-- The single-row dataset used to witness C3. -/
def anginaDataset : List Record :=
  [⟨"Angina", ["chest_pain", "nausea"]⟩]

/-- Witness for C3: the dataset token `"chest_pain"`, selected as
`"chest pain"`, retrieves `"Angina"`. -/
theorem retrieve_unnormalized_token_witness :
    "Angina" ∈ retrieve_conditions anginaDataset [unnormalize "chest_pain"] :=
  retrieve_unnormalized_token anginaDataset "chest_pain"
    ⟨"Angina", ["chest_pain", "nausea"]⟩ ⟨"Angina", ["chest_pain", "nausea"]⟩
    (by decide) (by decide) (by decide) (by decide)

/-- The three result fields rendered to the user (the JSON object keys the
model must return, lines 69-74 and 206-214). -/
structure ResultPayload where
  possible_conditions : List String
  next_steps : String
  disclaimer : String
deriving DecidableEq

/-- The fallback dictionary built in the `except:` branch (lines 200-204).
Python's `retrieved_conditions or ["Unknown"]` takes the sentinel exactly
when the retrieved list is empty (the falsy case). -/
def fallbackResult (retrieved_conditions : List String) : ResultPayload :=
  { possible_conditions :=
      if retrieved_conditions.isEmpty then ["Unknown"] else retrieved_conditions
    next_steps := "Consult a healthcare professional."
    disclaimer := "This is not medical advice" }

/-- The result displayed after the model call (lines 192-204): the parsed
payload when the call and the JSON parse both succeed, the fallback
otherwise.  `none` models every failure caught by the bare `except:`
(a raised call, a timeout, or text whose brace-delimited substring is not
parseable JSON). -/
def displayedResult (modelResult : Option ResultPayload)
    (retrieved_conditions : List String) : ResultPayload :=
  match modelResult with
  | some r => r
  | none => fallbackResult retrieved_conditions

/-- C4: whenever the model call fails, the displayed result is exactly the
fixed fallback payload: the retrieved conditions (or the `["Unknown"]`
sentinel when none were retrieved), the literal consult-a-professional
string, and the literal disclaimer; no error value is produced. -/
theorem model_failure_fallback :
    ∀ retrieved : List String,
      displayedResult none retrieved = fallbackResult retrieved ∧
        (displayedResult none retrieved).next_steps =
          "Consult a healthcare professional." ∧
        (displayedResult none retrieved).disclaimer = "This is not medical advice" ∧
        (retrieved ≠ [] →
          (displayedResult none retrieved).possible_conditions = retrieved) ∧
        (retrieved = [] →
          (displayedResult none retrieved).possible_conditions = ["Unknown"]) := by
  intro retrieved
  refine ⟨rfl, rfl, rfl, ?_, ?_⟩
  · intro h
    cases retrieved with
    | nil => exact absurd rfl h
    | cons a l => rfl
  · intro h
    subst h
    rfl

/-- Witness for C4, the spec's fallback scenario: with retrieved conditions
`["Flu"]`, the fallback displays `["Flu"]` and the literal next-steps
string. -/
theorem model_failure_fallback_witness :
    (displayedResult none ["Flu"]).possible_conditions = ["Flu"] ∧
      (displayedResult none ["Flu"]).next_steps =
        "Consult a healthcare professional." :=
  ⟨(model_failure_fallback ["Flu"]).2.2.2.1 (by decide),
    (model_failure_fallback ["Flu"]).2.1⟩

/-- The startup failures of the dataset loading block (lines 25-35): the
file is missing, or the table lacks the required columns. -/
inductive DatasetLoadError where
  | fileMissing
  | missingColumns
deriving DecidableEq

/-- A raw tabular file as read by `pd.read_csv`: column names plus rows of
cell strings in column order.  A missing cell is already rendered as the
string `"nan"`, as `astype(str)` does. -/
structure RawTable where
  cols : List String
  rows : List (List String)
deriving DecidableEq

/-- A column name counts as a symptom column when its lowercase form starts
with `"symptom"` (`c.lower().startswith("symptom")`, line 31). -/
def isSymptomCol (c : String) : Bool :=
  (pyLower c).data.take 7 == "symptom".data

/-- Cell of a row under a column label: the value at the first column of
that name, as `row[col]` reads it. -/
def cellAt (cols row : List String) (c : String) : String :=
  match (cols.zip row).find? (fun p => p.1 == c) with
  | some p => p.2
  | none => "nan"

/-- One loaded row: the trimmed condition cell (line 37) and the lowercased,
trimmed symptom cells in symptom-column order (lines 38-39). -/
def loadRecord (cols symptomCols row : List String) : Record :=
  { condition := pyStrip (cellAt cols row "condition")
    symptoms := symptomCols.map fun c => datasetNormalize (cellAt cols row c) }

/-- The dataset loading block (lines 25-39): a missing file halts startup,
a table without a `condition` column or without any symptom column halts
startup, and otherwise every row is loaded with the symptom columns
identified by the case-insensitive name test. -/
def loadDataset (file : Option RawTable) : Except DatasetLoadError (List Record) :=
  match file with
  | none => .error .fileMissing
  | some t =>
    if "condition" ∈ t.cols ∧ t.cols.filter isSymptomCol ≠ [] then
      .ok (t.rows.map (loadRecord t.cols (t.cols.filter isSymptomCol)))
    else
      .error .missingColumns

/-- C5: loading fails exactly when the file is missing, the `condition`
column is absent, or no column name starts with `"symptom"`
case-insensitively; otherwise it succeeds and yields the records built from
the columns selected purely by that name test. -/
theorem dataset_load_iff :
    ∀ file : Option RawTable,
      ((∃ e, loadDataset file = .error e) ↔
        file = none ∨ ∃ t, file = some t ∧
          ("condition" ∉ t.cols ∨ t.cols.filter isSymptomCol = [])) ∧
      ∀ t : RawTable, file = some t → "condition" ∈ t.cols →
        t.cols.filter isSymptomCol ≠ [] →
        loadDataset file =
          .ok (t.rows.map (loadRecord t.cols (t.cols.filter isSymptomCol))) := by
  intro file
  constructor
  · cases file with
    | none =>
      exact ⟨fun _ => Or.inl rfl, fun _ => ⟨.fileMissing, rfl⟩⟩
    | some t =>
      by_cases h : "condition" ∈ t.cols ∧ t.cols.filter isSymptomCol ≠ []
      · rw [show loadDataset (some t) =
            .ok (t.rows.map (loadRecord t.cols (t.cols.filter isSymptomCol))) by
          simp only [loadDataset]
          rw [if_pos h]]
        constructor
        · rintro ⟨e, he⟩
          exact Except.noConfusion he
        · rintro (hn | ⟨t', ht', hbad⟩)
          · exact Option.noConfusion hn
          · cases Option.some.inj ht'
            rcases hbad with hb | hb
            · exact absurd h.1 hb
            · exact absurd hb h.2
      · rw [show loadDataset (some t) = .error .missingColumns by
          simp only [loadDataset]
          rw [if_neg h]]
        constructor
        · intro _
          refine Or.inr ⟨t, rfl, ?_⟩
          rcases not_and_or.mp h with hb | hb
          · exact Or.inl hb
          · exact Or.inr (not_not.mp hb)
        · intro _
          exact ⟨.missingColumns, rfl⟩
  · intro t ht h1 h2
    subst ht
    simp only [loadDataset]
    rw [if_pos ⟨h1, h2⟩]

/-- A well-formed raw table used to witness C5. -/
def sampleTable : RawTable :=
  ⟨["condition", "Symptom_1", "Symptom_2"],
    [["Flu", "Fever", "cough "], ["Cold", "cough", "sneezing"]]⟩

/-- Witness for C5: the sample table loads successfully into the expected
records. -/
theorem dataset_load_iff_witness :
    loadDataset (some sampleTable) =
      .ok [⟨"Flu", ["fever", "cough"]⟩, ⟨"Cold", ["cough", "sneezing"]⟩] := by
  rw [(dataset_load_iff (some sampleTable)).2 sampleTable rfl (by decide) (by decide)]
  rfl

/-- C6: the query-side normalization identifies `"Chest Pain"`,
`"chest_pain"` and `" chest pain "`, and replacing any element of a
selection by a variant with the same normalization leaves the retrieval
result unchanged. -/
theorem case_spacing_insensitive :
    (normalizeToken "Chest Pain" = normalizeToken "chest_pain" ∧
        normalizeToken " chest pain " = normalizeToken "chest_pain") ∧
      ∀ (ds : List Record) (pre post : List String) (a b : String),
        normalizeToken a = normalizeToken b →
        retrieve_conditions ds (pre ++ a :: post) =
          retrieve_conditions ds (pre ++ b :: post) := by
  refine ⟨⟨by decide, by decide⟩, fun ds pre post a b h => ?_⟩
  apply retrieve_congr
  simp [h]

/-- Witness for C6: replacing `"cough "` by `"Cough"` in a selection leaves
the retrieved conditions unchanged. -/
theorem case_spacing_insensitive_witness :
    retrieve_conditions fluColdDataset (["fever"] ++ "Cough" :: []) =
      retrieve_conditions fluColdDataset (["fever"] ++ "cough " :: []) :=
  case_spacing_insensitive.2 fluColdDataset ["fever"] [] "Cough" "cough " (by decide)

/-- C7: retrieval is order-independent: permuting the selection does not
change the result set. -/
theorem retrieve_perm_invariant :
    ∀ (ds : List Record) (s₁ s₂ : List String), s₁.Perm s₂ →
      retrieve_conditions ds s₁ = retrieve_conditions ds s₂ := by
  intro ds s₁ s₂ h
  apply retrieve_congr
  apply Finset.ext
  intro x
  simp only [List.mem_toFinset]
  exact (h.map normalizeToken).mem_iff

/-- Witness for C7: swapping the two selected symptoms leaves the result
unchanged on the scenario dataset. -/
theorem retrieve_perm_invariant_witness :
    retrieve_conditions fluColdDataset ["fever", "cough"] =
      retrieve_conditions fluColdDataset ["cough", "fever"] :=
  retrieve_perm_invariant fluColdDataset ["fever", "cough"] ["cough", "fever"]
    (by decide)

/-- C8: an empty selection retrieves nothing, for every loaded dataset. -/
theorem retrieve_empty_selection :
    ∀ ds : List Record, retrieve_conditions ds [] = ∅ := by
  intro ds
  apply Finset.ext
  intro c
  rw [mem_retrieve_iff]
  simp

/-- The process state around `retrieve_conditions`: the module-level loaded
dataframe.  The function body (lines 42-54) only reads it and assigns no
module state, so the step returns the state unchanged. -/
structure AppState where
  data : List Record
deriving DecidableEq

/-- `retrieve_conditions` as a step on the process state: result plus the
(unchanged) state. -/
def runRetrieve (st : AppState) (sel : List String) : Finset String × AppState :=
  (retrieve_conditions st.data sel, st)

/-- C9: retrieval is deterministic and has no hidden mutable state: two
loads of the same file feed equal data to retrieval, giving equal results
for equal selections, and a retrieval call leaves the process state intact,
so it never changes the result of a later call. -/
theorem retrieve_deterministic :
    ∀ (f : Option RawTable) (d₁ d₂ : List Record) (sel sel₂ : List String)
      (st : AppState),
      (loadDataset f = .ok d₁ → loadDataset f = .ok d₂ →
        retrieve_conditions d₁ sel = retrieve_conditions d₂ sel) ∧
        (runRetrieve st sel₂).2 = st ∧
        runRetrieve (runRetrieve st sel₂).2 sel = runRetrieve st sel := by
  intro f d₁ d₂ sel sel₂ st
  refine ⟨fun h₁ h₂ => ?_, rfl, rfl⟩
  rw [h₁] at h₂
  rw [Except.ok.inj h₂]

/-- Witness for C9: loading the sample table twice and selecting
`["cough"]` in each run yields the same result. -/
theorem retrieve_deterministic_witness :
    retrieve_conditions [⟨"Flu", ["fever", "cough"]⟩, ⟨"Cold", ["cough", "sneezing"]⟩]
        ["cough"] =
      retrieve_conditions [⟨"Flu", ["fever", "cough"]⟩, ⟨"Cold", ["cough", "sneezing"]⟩]
        ["cough"] :=
  (retrieve_deterministic (some sampleTable)
      [⟨"Flu", ["fever", "cough"]⟩, ⟨"Cold", ["cough", "sneezing"]⟩]
      [⟨"Flu", ["fever", "cough"]⟩, ⟨"Cold", ["cough", "sneezing"]⟩]
      ["cough"] [] ⟨[]⟩).1 (by rfl) (by rfl)

/-- If a character map that only rewrites `a` to `b` produces a list that
does not contain `b`, it changed nothing. -/
lemma map_replace_eq_self {a b : Char} :
    ∀ {l m : List Char}, (l.map fun c => if c = a then b else c) = m →
      b ∉ m → l = m := by
  intro l
  induction l with
  | nil =>
    intro m h _
    exact h
  | cons c t ih =>
    intro m h hb
    cases m with
    | nil => exact absurd h (by simp)
    | cons d u =>
      rw [List.map_cons] at h
      obtain ⟨h1, h2⟩ := List.cons.inj h
      have hcd : c = d := by
        by_cases hca : c = a
        · rw [if_pos hca] at h1
          exact absurd (h1 ▸ List.mem_cons_self d u) hb
        · rwa [if_neg hca] at h1
      subst hcd
      exact congrArg (c :: ·) (ih h2 fun hmem => hb (List.mem_cons_of_mem _ hmem))

/-- Equal character data gives equal strings. -/
lemma string_data_inj {s t : String} (h : s.data = t.data) : s = t := by
  cases s
  cases t
  exact congrArg String.mk h

/-- Exhibiting a dataset token whose display form is `"nan"` forces the
token itself to be `"nan"`: un-normalization only turns underscores into
spaces, and `"nan"` contains neither. -/
lemma unnormalize_eq_nan {s : String} (h : unnormalize s = "nan") : s = "nan" := by
  apply string_data_inj
  exact map_replace_eq_self (congrArg String.data h) (by decide)

/-- A record all of whose symptom cells are empty or `"nan"` has an empty
symptom set. -/
lemma rowSymptoms_eq_empty {r : Record}
    (h : ∀ s ∈ r.symptoms, s = "" ∨ s = "nan") : rowSymptoms r = ∅ := by
  unfold rowSymptoms
  rw [List.filter_eq_nil_iff.mpr ?_]
  · rfl
  · intro s hs
    rcases h s hs with h1 | h1 <;> simp [h1]

/-- C10: symptom slots loaded as `"nan"` (the string form of a missing
cell) or as the empty string never enter a record's symptom set, a record
carrying only such slots never contributes a condition to any retrieval,
and `"nan"` never appears among the selectable symptom options. -/
theorem nan_and_empty_excluded :
    (∀ r : Record, "" ∉ rowSymptoms r ∧ "nan" ∉ rowSymptoms r) ∧
      (∀ (ds₁ ds₂ : List Record) (r : Record) (sel : List String),
        (∀ s ∈ r.symptoms, s = "" ∨ s = "nan") →
        retrieve_conditions (ds₁ ++ r :: ds₂) sel =
          retrieve_conditions (ds₁ ++ ds₂) sel) ∧
      ∀ ds : List Record, "nan" ∉ all_symptoms ds := by
  refine ⟨fun r => ⟨?_, ?_⟩, ?_, ?_⟩
  · intro hmem
    simp [rowSymptoms] at hmem
  · intro hmem
    simp [rowSymptoms] at hmem
  · intro ds₁ ds₂ r sel h
    have hr : rowSymptoms r = ∅ := rowSymptoms_eq_empty h
    apply Finset.ext
    intro c
    rw [mem_retrieve_iff, mem_retrieve_iff]
    constructor
    · rintro ⟨r', hmem, hne, hc⟩
      rcases List.mem_append.mp hmem with h1 | h1
      · exact ⟨r', List.mem_append.mpr (Or.inl h1), hne, hc⟩
      · rcases List.mem_cons.mp h1 with h2 | h2
        · subst h2
          rw [hr] at hne
          simp at hne
        · exact ⟨r', List.mem_append.mpr (Or.inr h2), hne, hc⟩
    · rintro ⟨r', hmem, hne, hc⟩
      rcases List.mem_append.mp hmem with h1 | h1
      · exact ⟨r', List.mem_append.mpr (Or.inl h1), hne, hc⟩
      · exact ⟨r', List.mem_append.mpr (Or.inr (List.mem_cons.mpr (Or.inr h1))),
          hne, hc⟩
  · intro ds hmem
    unfold all_symptoms at hmem
    simp only [List.mem_toFinset, List.mem_map, List.mem_filter] at hmem
    obtain ⟨s, ⟨_, hsne⟩, heq⟩ := hmem
    rw [unnormalize_eq_nan heq] at hsne
    simp at hsne

/-- A record whose slots are only missing-cell markers, used to witness
C10. -/
def inertRecord : Record :=
  ⟨"Ghost", ["nan", ""]⟩

/-- Witness for C10: inserting the inert record into the scenario dataset
does not change what `["cough"]` retrieves. -/
theorem nan_and_empty_excluded_witness :
    retrieve_conditions ([] ++ inertRecord :: fluColdDataset) ["cough"] =
      retrieve_conditions ([] ++ fluColdDataset) ["cough"] :=
  nan_and_empty_excluded.2.1 [] fluColdDataset inertRecord ["cough"] (by decide)

end HealthApp
